import Mathlib

/-!
Shallow embedding of the webhook-relay server in `src/app.js`.

The program receives CRM webhook payloads, fetches related records over
HTTP, asks a text-generation API for a draft, and writes the draft back as
a CRM note.  Every outbound HTTP call is modelled by an oracle in an `Env`
record; each pipeline returns the ordered trace of outbound effects it
performed together with its outcome (`Except Unit _` models a thrown or
propagated JavaScript error).  Generation calls are indexed by a running
counter so that two calls to the generative API may return different text,
as a nondeterministic remote API can.  Timestamps and the `data` payload of
diagnostic log entries are real-time values outside the embedding and are
omitted; the log keeps the `message` field, which is what the spec's
claims about the log refer to.
-/

/-- JavaScript truthiness for an optional string: `undefined`/absent and
the empty string are falsy, every other string is truthy. -/
def jsTruthy : Option String → Bool
  | none => false
  | some s => !(s == "")

/-- JavaScript `a || b` on two optional strings. -/
def jsOrOpt (a b : Option String) : Option String :=
  if jsTruthy a then a else b

/-- JavaScript `a || d` where the fallback `d` is a present string. -/
def jsOr (a : Option String) (d : String) : String :=
  if jsTruthy a then a.getD "" else d

/-- One message of a conversation thread (fields consulted at
`src/app.js` lines 138-139). -/
structure Message where
  direction : Option String
  senderType : Option String
  text : Option String
  body : Option String
  deriving Repr, DecidableEq

/-- One thread of a conversation (`conversationData.threads[0].messages`). -/
structure Thread where
  messages : List Message
  deriving Repr, DecidableEq

/-- A conversation record as returned by the CRM conversation fetch. -/
structure ConvData where
  threads : List Thread
  subject : Option String
  deriving Repr, DecidableEq

/-- `conversationData.threads?.[0]?.messages || []` (`src/app.js` line 131). -/
def messagesOf (cd : ConvData) : List Message :=
  match cd.threads.head? with
  | some th => th.messages
  | none => []

/-- `latestMessage.direction || latestMessage.senderType` (line 138). -/
def directionOf (m : Message) : Option String :=
  jsOrOpt m.direction m.senderType

/-- `latestMessage.text || latestMessage.body || ''` (line 139). -/
def contentOf (m : Message) : String :=
  jsOr (jsOrOpt m.text m.body) ""

/-- `conversationData.subject || 'No Subject'` (line 140). -/
def subjectOf (cd : ConvData) : String :=
  jsOr cd.subject "No Subject"

/-- One association returned by the CRM associations endpoint. -/
structure Association where
  type : Option String
  id : String
  deriving Repr, DecidableEq

/-- Body of the associations response (`{ results: [...] }`). -/
structure AssocResult where
  results : List Association
  deriving Repr, DecidableEq

/-- Deal ids among the associations: filter on
`assoc.type === 'conversation_to_deal'` and map to `assoc.id`
(`src/app.js` lines 150-152). -/
def dealIdsOf (a : AssocResult) : List String :=
  (a.results.filter (fun assoc => assoc.type == some "conversation_to_deal")).map
    (fun assoc => assoc.id)

/-- The deal properties requested by `getDealData`
(`properties: dealname,amount,dealstage,closedate,pipeline,dealtype,description`,
`src/app.js` line 430).  A property absent from the CRM record is `none`. -/
structure DealProps where
  dealname : Option String
  amount : Option String
  dealstage : Option String
  closedate : Option String
  pipeline : Option String
  dealtype : Option String
  description : Option String
  deriving Repr, DecidableEq

/-- A deal record as returned by the CRM deal fetch. -/
structure DealData where
  properties : DealProps
  deriving Repr, DecidableEq

/-- The prompt template of `generateEmailContent` (`src/app.js` lines
447-463), with the five interpolations and their `|| 'N/A'` fallbacks. -/
def dealPrompt (p : DealProps) : String :=
  "\n        Generate a professional follow-up email for a new deal with these details:\n        \n        Deal Name: "
    ++ jsOr p.dealname "N/A"
    ++ "\n        Amount: " ++ jsOr p.amount "N/A"
    ++ "\n        Stage: " ++ jsOr p.dealstage "N/A"
    ++ "\n        Close Date: " ++ jsOr p.closedate "N/A"
    ++ "\n        Description: " ++ jsOr p.description "N/A"
    ++ "\n        \n        Create a warm, professional email that:\n        1. Thanks the prospect for their interest\n        2. Summarizes the deal details\n        3. Suggests next steps\n        4. Maintains a helpful tone\n        \n        Keep it concise and actionable.\n        "

/-- The prompt template of `generateConversationResponse` (`src/app.js`
lines 219-233), interpolating the already-defaulted subject and content. -/
def conversationPrompt (subject content : String) : String :=
  "\n        A customer has sent us a message. Please generate a professional, helpful response:\n\n        Subject: "
    ++ subject
    ++ "\n        Message: " ++ content
    ++ "\n\n        Generate a response that:\n        1. Acknowledges their message professionally\n        2. Addresses their concerns or questions\n        3. Provides helpful information\n        4. Suggests next steps if appropriate\n        5. Maintains a warm, professional tone\n\n        Keep it concise, helpful, and customer-focused.\n        "

/-- Note body built by `saveNoteToHubSpot` (`src/app.js` line 486). -/
def dealNoteBody (emailContent : String) : String :=
  "AI-Generated Follow-up Email:\n\n" ++ emailContent

/-- Note body built by `saveEmailResponseNoteToDeal` (`src/app.js` line 257). -/
def conversationNoteBody (aiResponse : String) : String :=
  "AI-Generated Email Response:\n\n" ++ aiResponse
    ++ "\n\n--- \nThis is a suggested response to the customer\x27s email. Please review before sending."

/-- The association ids and body of a posted engagement note. -/
structure NoteData where
  emailIds : List String
  dealIds : List String
  body : String
  deriving Repr, DecidableEq

/-- The note payload posted by `saveNoteToHubSpot` (`src/app.js` lines
477-488): deal association only. -/
def dealNote (dealId emailContent : String) : NoteData :=
  { emailIds := [], dealIds := [dealId], body := dealNoteBody emailContent }

/-- The note payload posted by `saveEmailResponseNoteToDeal` (`src/app.js`
lines 247-259): email and deal associations. -/
def convNote (emailId aiResponse dealId : String) : NoteData :=
  { emailIds := [emailId], dealIds := [dealId], body := conversationNoteBody aiResponse }

/-- One outbound HTTP effect, recorded in program order. -/
inductive Effect where
  | fetchDeal (dealId : String)
  | fetchConv (conversationId : String)
  | fetchAssocHttp (conversationId : String)
  | generate (prompt : String)
  | createNote (note : NoteData)
  deriving Repr, DecidableEq

/-- One inbound webhook event descriptor; fields the dispatchers consult.
A field absent from the JSON object is `none`. -/
structure WebhookEvent where
  subscriptionType : Option String
  object : Option String
  eventId : Option String
  objectId : String
  deriving Repr, DecidableEq

/-- Oracles for the external world: the response each outbound call would
receive.  `Except.error ()` models a failed HTTP call / thrown error.
`genResp` is indexed by the number of generation calls made so far in the
request, so successive calls may return different text. -/
structure Env where
  dealResp : String → Except Unit DealData
  convResp : String → Except Unit ConvData
  assocResp : String → Except Unit AssocResult
  genResp : Nat → Except Unit String
  noteResp : NoteData → Except Unit Unit

/-- `getDealData` (`src/app.js` lines 420-439): GET the deal record; a
failure is rethrown to the caller. -/
def getDealData (env : Env) (dealId : String) : List Effect × Except Unit DealData :=
  ([Effect.fetchDeal dealId], env.dealResp dealId)

/-- `getConversationData` (`src/app.js` lines 177-193): GET the
conversation; a failure is rethrown to the caller. -/
def getConversationData (env : Env) (conversationId : String) :
    List Effect × Except Unit ConvData :=
  ([Effect.fetchConv conversationId], env.convResp conversationId)

/-- `getConversationAssociations` (`src/app.js` lines 196-212): GET the
associations; on failure the catch block returns `{ results: [] }` instead
of rethrowing, so the result type carries no error. -/
def getConversationAssociations (env : Env) (conversationId : String) :
    List Effect × AssocResult :=
  ([Effect.fetchAssocHttp conversationId],
    match env.assocResp conversationId with
    | Except.ok r => r
    | Except.error _ => { results := [] })

/-- `generateEmailContent` (`src/app.js` lines 442-472): one generation
call with the deal prompt; `k` is the index of this generation call. -/
def generateEmailContent (env : Env) (k : Nat) (dealData : DealData) :
    List Effect × Except Unit String :=
  ([Effect.generate (dealPrompt dealData.properties)], env.genResp k)

/-- `generateConversationResponse` (`src/app.js` lines 215-242): one
generation call with the conversation prompt. -/
def generateConversationResponse (env : Env) (k : Nat) (subject content : String) :
    List Effect × Except Unit String :=
  ([Effect.generate (conversationPrompt subject content)], env.genResp k)

/-- `saveNoteToHubSpot` (`src/app.js` lines 475-506): POST the deal note;
a failure is rethrown. -/
def saveNoteToHubSpot (env : Env) (dealId emailContent : String) :
    List Effect × Except Unit Unit :=
  ([Effect.createNote (dealNote dealId emailContent)],
    env.noteResp (dealNote dealId emailContent))

/-- `saveEmailResponseNoteToDeal` (`src/app.js` lines 245-277): POST the
conversation-reply note; a failure is rethrown. -/
def saveEmailResponseNoteToDeal (env : Env) (emailId aiResponse dealId : String) :
    List Effect × Except Unit Unit :=
  ([Effect.createNote (convNote emailId aiResponse dealId)],
    env.noteResp (convNote emailId aiResponse dealId))

/-- `processDealCreation` (`src/app.js` lines 280-301): fetch the deal,
generate the follow-up email, save the note; every failure is rethrown.
Returns (trace, next generation-call index, outcome). -/
def processDealCreation (env : Env) (k : Nat) (event : WebhookEvent) :
    List Effect × Nat × Except Unit Unit :=
  match getDealData env event.objectId with
  | (t1, Except.error e) => (t1, k, Except.error e)
  | (t1, Except.ok dealData) =>
    match generateEmailContent env k dealData with
    | (t2, Except.error e) => (t1 ++ t2, k + 1, Except.error e)
    | (t2, Except.ok emailContent) =>
      match saveNoteToHubSpot env event.objectId emailContent with
      | (t3, r) => (t1 ++ t2 ++ t3, k + 1, r)

/-- The per-deal loop of `processConversationReply` (`src/app.js` lines
160-166): for each associated deal id, generate a response and save the
note; a failure aborts the loop (the throw propagates). -/
def conversationDealLoop (env : Env) (conversationId subject content : String) :
    List String → Nat → List Effect × Nat × Except Unit Unit
  | [], k => ([], k, Except.ok ())
  | dealId :: rest, k =>
    match generateConversationResponse env k subject content with
    | (t1, Except.error e) => (t1, k + 1, Except.error e)
    | (t1, Except.ok aiResponse) =>
      match saveEmailResponseNoteToDeal env conversationId aiResponse dealId with
      | (t2, Except.error e) => (t1 ++ t2, k + 1, Except.error e)
      | (t2, Except.ok _) =>
        match conversationDealLoop env conversationId subject content rest (k + 1) with
        | (t3, k2, r) => (t1 ++ t2 ++ t3, k2, r)

/-- `processConversationReply` (`src/app.js` lines 121-174): fetch the
conversation; stop silently when there is no message; continue past the
direction gate only for `INCOMING`/`VISITOR`; fetch associations; stop
silently when no deal is associated; otherwise run the per-deal loop. -/
def processConversationReply (env : Env) (k : Nat) (event : WebhookEvent) :
    List Effect × Nat × Except Unit Unit :=
  match getConversationData env event.objectId with
  | (t1, Except.error e) => (t1, k, Except.error e)
  | (t1, Except.ok conversationData) =>
    match (messagesOf conversationData).getLast? with
    | none => (t1, k, Except.ok ())
    | some latestMessage =>
      if directionOf latestMessage = some "INCOMING"
          ∨ directionOf latestMessage = some "VISITOR" then
        match getConversationAssociations env event.objectId with
        | (t2, associations) =>
          if dealIdsOf associations = [] then
            (t1 ++ t2, k, Except.ok ())
          else
            match conversationDealLoop env event.objectId
                (subjectOf conversationData) (contentOf latestMessage)
                (dealIdsOf associations) k with
            | (t3, k2, r) => (t1 ++ t2 ++ t3, k2, r)
      else
        (t1, k, Except.ok ())

/-- A diagnostic log entry; the real entry also carries a timestamp and a
free-form `data` object, which no claim depends on. -/
structure LogEntry where
  message : String
  deriving Repr, DecidableEq

/-- `logActivity` (`src/app.js` lines 45-58): append, then keep only the
last 50 entries (`activityLog.slice(-50)`). -/
def logActivity (log : List LogEntry) (message : String) : List LogEntry :=
  if (log ++ [LogEntry.mk message]).length > 50 then
    (log ++ [LogEntry.mk message]).drop ((log ++ [LogEntry.mk message]).length - 50)
  else
    log ++ [LogEntry.mk message]

/-- The `GET /activity-log` handler body (`src/app.js` line 39):
`activityLog.slice(-10)`, the most recent (at most) 10 entries. -/
def activityLogView (log : List LogEntry) : List LogEntry :=
  log.drop (log.length - 10)

/-- The JSON bodies the routes can answer with. -/
inductive RespBody where
  | invalidWebhookData
  | dealWebhookOk
  | conversationWebhookOk
  | internalError
  | testDealOk
  | testError
  deriving Repr, DecidableEq

/-- An HTTP response: status code and which JSON body was sent. -/
structure HttpResponse where
  status : Nat
  body : RespBody
  deriving Repr, DecidableEq

/-- The parsed request body: absent, some non-array JSON value, or an
array of event descriptors. -/
inductive ReqBody where
  | absent
  | nonArray
  | array (events : List WebhookEvent)
  deriving Repr, DecidableEq

/-- What one route invocation did: outbound effects, the activity log
after the handler ran, and the HTTP response. -/
structure RouteOutcome where
  trace : List Effect
  activityLog : List LogEntry
  response : HttpResponse
  deriving Repr, DecidableEq

/-- The event loop of `POST /webhook/deal-created` (`src/app.js` lines
79-84): events whose `subscriptionType` is `deal.creation` are logged and
processed in order; a thrown error aborts the loop and propagates. -/
def dealEventLoop (env : Env) :
    List WebhookEvent → Nat → List LogEntry →
      List Effect × Nat × List LogEntry × Except Unit Unit
  | [], k, log => ([], k, log, Except.ok ())
  | e :: rest, k, log =>
    if e.subscriptionType = some "deal.creation" then
      match processDealCreation env k e with
      | (t1, k1, Except.error err) =>
        (t1, k1, logActivity log "Processing deal creation", Except.error err)
      | (t1, k1, Except.ok _) =>
        match dealEventLoop env rest k1 (logActivity log "Processing deal creation") with
        | (t2, k2, log2, r) => (t1 ++ t2, k2, log2, r)
    else
      dealEventLoop env rest k log

/-- `POST /webhook/deal-created` (`src/app.js` lines 61-93): log receipt,
validate the body shape (400 on failure), run the event loop, answer 200
on success; a thrown error is caught, logged, and answered with 500. -/
def dealCreatedHandler (env : Env) (log : List LogEntry) (body : ReqBody) : RouteOutcome :=
  let log0 := logActivity log "Deal webhook received"
  match body with
  | ReqBody.array (e :: rest) =>
    match dealEventLoop env (e :: rest) 0 log0 with
    | (t, _, log1, Except.ok _) =>
      { trace := t
        activityLog := logActivity log1 "Deal webhook processed successfully"
        response := { status := 200, body := RespBody.dealWebhookOk } }
    | (t, _, log1, Except.error _) =>
      { trace := t
        activityLog := logActivity log1 "Deal webhook error"
        response := { status := 500, body := RespBody.internalError } }
  | _ =>
    { trace := []
      activityLog := logActivity log0 "Invalid webhook data received"
      response := { status := 400, body := RespBody.invalidWebhookData } }

/-- The event loop of `POST /webhook/email-reply` (`src/app.js` lines
106-111): events with `object === 'conversation'` and
`eventId === 'created'` are processed in order; a thrown error aborts the
loop and propagates. -/
def convEventLoop (env : Env) :
    List WebhookEvent → Nat → List Effect × Nat × Except Unit Unit
  | [], k => ([], k, Except.ok ())
  | e :: rest, k =>
    if e.object = some "conversation" ∧ e.eventId = some "created" then
      match processConversationReply env k e with
      | (t1, k1, Except.error err) => (t1, k1, Except.error err)
      | (t1, k1, Except.ok _) =>
        match convEventLoop env rest k1 with
        | (t2, k2, r) => (t1 ++ t2, k2, r)
    else
      convEventLoop env rest k

/-- `POST /webhook/email-reply` (`src/app.js` lines 96-118): validate the
body shape (400 on failure), run the event loop, answer 200 on success or
500 on a thrown error.  This route never calls `logActivity` — its catch
block only writes to the console — so the activity log passes through
unchanged. -/
def emailReplyHandler (env : Env) (log : List LogEntry) (body : ReqBody) : RouteOutcome :=
  match body with
  | ReqBody.array (e :: rest) =>
    match convEventLoop env (e :: rest) 0 with
    | (t, _, Except.ok _) =>
      { trace := t, activityLog := log
        response := { status := 200, body := RespBody.conversationWebhookOk } }
    | (t, _, Except.error _) =>
      { trace := t, activityLog := log
        response := { status := 500, body := RespBody.internalError } }
  | _ =>
    { trace := [], activityLog := log
      response := { status := 400, body := RespBody.invalidWebhookData } }

/-- `POST /test-deal` (`src/app.js` lines 523-536): build the synthetic
`deal.creation` event with `req.body.dealId || '12345'` and run
`processDealCreation`; 200 on success, 500 on a thrown error. -/
def testDealHandler (env : Env) (dealIdField : Option String) :
    List Effect × HttpResponse :=
  let mockEvent : WebhookEvent :=
    { subscriptionType := some "deal.creation", object := none, eventId := none
      objectId := jsOr dealIdField "12345" }
  match processDealCreation env 0 mockEvent with
  | (t, _, Except.ok _) => (t, { status := 200, body := RespBody.testDealOk })
  | (t, _, Except.error _) => (t, { status := 500, body := RespBody.testError })

/-- `POST /test-email-reply` (`src/app.js` lines 509-522).  The source
handler builds a mock event and calls `processEmailReply`, a function that
is defined nowhere in `src/app.js`; evaluating that call in JavaScript
throws a `ReferenceError` before any outbound request is made, and the
surrounding catch answers 500.  The handler therefore performs no pipeline
effect and always responds 500. -/
def testEmailReplyHandler (_emailIdField : Option String) :
    List Effect × HttpResponse :=
  ([], { status := 500, body := RespBody.testError })

/-! Concrete sample data used by the witness and counterexample theorems. -/

/-- A fully populated deal property map. -/
def dealProps1 : DealProps :=
  { dealname := some "Acme Deal", amount := some "1000", dealstage := some "appointmentscheduled",
    closedate := some "2026-01-01", pipeline := some "default", dealtype := some "newbusiness",
    description := some "First deal" }

/-- A sample deal record. -/
def dealData1 : DealData := { properties := dealProps1 }

/-- A `deal.creation` event for deal `123`. -/
def dealEvent1 : WebhookEvent :=
  { subscriptionType := some "deal.creation", object := none, eventId := none, objectId := "123" }

/-- A `deal.creation` event for deal `1` (whose fetch fails in `failFirstEnv`). -/
def dealEventA : WebhookEvent :=
  { subscriptionType := some "deal.creation", object := none, eventId := none, objectId := "1" }

/-- A `deal.creation` event for deal `2`. -/
def dealEventB : WebhookEvent :=
  { subscriptionType := some "deal.creation", object := none, eventId := none, objectId := "2" }

/-- An incoming customer message. -/
def incomingMsg : Message :=
  { direction := some "INCOMING", senderType := none, text := some "Hi there", body := none }

/-- An outgoing (agent) message. -/
def outgoingMsg : Message :=
  { direction := some "OUTGOING", senderType := none, text := some "Our reply", body := none }

/-- A conversation whose latest message is incoming. -/
def convInc : ConvData :=
  { threads := [{ messages := [incomingMsg] }], subject := some "Hello" }

/-- A conversation whose latest message is outgoing. -/
def convOut : ConvData :=
  { threads := [{ messages := [outgoingMsg] }], subject := some "Hello" }

/-- Associations of a conversation: two deals and one contact. -/
def assoc2 : AssocResult :=
  { results := [ { type := some "conversation_to_deal", id := "D1" },
                 { type := some "conversation_to_contact", id := "K1" },
                 { type := some "conversation_to_deal", id := "D2" } ] }

/-- A conversation-created event for conversation `900` (incoming in `okEnv`). -/
def convEventInc : WebhookEvent :=
  { subscriptionType := none, object := some "conversation", eventId := some "created",
    objectId := "900" }

/-- A conversation-created event for conversation `out` (outgoing in `okEnv`). -/
def convEventOut : WebhookEvent :=
  { subscriptionType := none, object := some "conversation", eventId := some "created",
    objectId := "out" }

/-- An environment in which every outbound call succeeds; the generation
oracle returns the decimal index of the call, so successive generations
differ. -/
def okEnv : Env :=
  { dealResp := fun _ => Except.ok dealData1
    convResp := fun id => if id = "out" then Except.ok convOut else Except.ok convInc
    assocResp := fun _ => Except.ok assoc2
    genResp := fun k => Except.ok (Nat.repr k)
    noteResp := fun _ => Except.ok () }

/-- Like `okEnv`, but fetching deal `1` fails. -/
def failFirstEnv : Env :=
  { dealResp := fun id => if id = "1" then Except.error () else Except.ok dealData1
    convResp := fun _ => Except.ok convInc
    assocResp := fun _ => Except.ok assoc2
    genResp := fun k => Except.ok (Nat.repr k)
    noteResp := fun _ => Except.ok () }

/-- Like `okEnv`, but every note write fails. -/
def noteFailEnv : Env :=
  { dealResp := fun _ => Except.ok dealData1
    convResp := fun _ => Except.ok convInc
    assocResp := fun _ => Except.ok assoc2
    genResp := fun k => Except.ok (Nat.repr k)
    noteResp := fun _ => Except.error () }

/-! Helper lemmas shared by the claim theorems. -/

/-- Appending to the rolling log always leaves the new entry last,
whether or not the capacity bound evicted an old entry. -/
theorem logActivity_getLast (log : List LogEntry) (m : String) :
    (logActivity log m).getLast? = some { message := m } := by
  unfold logActivity
  by_cases h : (log ++ [LogEntry.mk m]).length > 50
  · rw [if_pos h, List.drop_append_of_le_length (by simp at h ⊢; try omega),
      List.getLast?_concat]
  · rw [if_neg h]
    exact List.getLast?_concat _

/-! Theorems for the claims. -/

/-- Claim C1: for a deal-created webhook request whose body is an array
holding exactly one `deal.creation` event, the pipeline performs the deal
fetch, then the generation call, then the note write, exactly once each
and in that order, and when all three succeed the response status is 200. -/
theorem c1_deal_creation_pipeline (env : Env) (log : List LogEntry) (e : WebhookEvent)
    (d : DealData) (g : String)
    (hsub : e.subscriptionType = some "deal.creation")
    (hdeal : env.dealResp e.objectId = Except.ok d)
    (hgen : env.genResp 0 = Except.ok g)
    (hnote : env.noteResp (dealNote e.objectId g) = Except.ok ()) :
    (dealCreatedHandler env log (ReqBody.array [e])).trace =
      [Effect.fetchDeal e.objectId,
       Effect.generate (dealPrompt d.properties),
       Effect.createNote (dealNote e.objectId g)] ∧
    (dealCreatedHandler env log (ReqBody.array [e])).response.status = 200 := by
  simp [dealCreatedHandler, dealEventLoop, processDealCreation, getDealData,
    generateEmailContent, saveNoteToHubSpot, hsub, hdeal, hgen, hnote]

/-- Witness for C1 at a concrete successful run. -/
theorem c1_witness :
    (dealCreatedHandler okEnv [] (ReqBody.array [dealEvent1])).trace =
      [Effect.fetchDeal dealEvent1.objectId,
       Effect.generate (dealPrompt dealData1.properties),
       Effect.createNote (dealNote dealEvent1.objectId "0")] ∧
    (dealCreatedHandler okEnv [] (ReqBody.array [dealEvent1])).response.status = 200 :=
  c1_deal_creation_pipeline okEnv [] dealEvent1 dealData1 "0" rfl rfl rfl rfl

/-- Counterexample to claim C2: in `failFirstEnv` the first `deal.creation`
event of the batch fails at its deal fetch, and the second matching event
is never dispatched (its deal fetch does not appear in the trace): one
event failure halts the rest of the request. -/
theorem c2_counterexample :
    Effect.fetchDeal "2" ∉
      (dealCreatedHandler failFirstEnv [] (ReqBody.array [dealEventA, dealEventB])).trace ∧
    (dealCreatedHandler failFirstEnv []
      (ReqBody.array [dealEventA, dealEventB])).response.status = 500 := by
  decide

/-- Claim C2 (amended): when processing a matching event of the batch
fails, the remaining events of the same request are NOT processed — the
thrown error aborts the dispatch loop, is caught once at the request
level, is logged there, and the response is 500.  Stated for a failure at
the first event: whatever events follow, the request trace is exactly the
failing event's trace. -/
theorem c2_amended_failure_halts (env : Env) (log : List LogEntry)
    (e : WebhookEvent) (rest : List WebhookEvent) (t : List Effect) (k : Nat)
    (hsub : e.subscriptionType = some "deal.creation")
    (hfail : processDealCreation env 0 e = (t, k, Except.error ())) :
    (dealCreatedHandler env log (ReqBody.array (e :: rest))).trace = t ∧
    (dealCreatedHandler env log (ReqBody.array (e :: rest))).response.status = 500 ∧
    ((dealCreatedHandler env log (ReqBody.array (e :: rest))).activityLog).getLast? =
      some { message := "Deal webhook error" } := by
  simp [dealCreatedHandler, dealEventLoop, hsub, hfail, logActivity_getLast]

/-- Witness for the amended C2 at a concrete two-event batch. -/
theorem c2_witness :
    (dealCreatedHandler failFirstEnv []
      (ReqBody.array [dealEventA, dealEventB])).trace = [Effect.fetchDeal "1"] ∧
    (dealCreatedHandler failFirstEnv []
      (ReqBody.array [dealEventA, dealEventB])).response.status = 500 ∧
    ((dealCreatedHandler failFirstEnv []
      (ReqBody.array [dealEventA, dealEventB])).activityLog).getLast? =
      some { message := "Deal webhook error" } :=
  c2_amended_failure_halts failFirstEnv [] dealEventA [dealEventB]
    [Effect.fetchDeal "1"] 0 rfl rfl

/-- Counterexample to claim C3: on the email-reply route a failing note
write yields status 500, but no diagnostic activity-log entry is written —
the route's catch block only writes to the console, so the log (here
empty) stays empty. -/
theorem c3_counterexample :
    (emailReplyHandler noteFailEnv [] (ReqBody.array [convEventInc])).response.status = 500 ∧
    (emailReplyHandler noteFailEnv [] (ReqBody.array [convEventInc])).activityLog = [] := by
  decide

/-- Claim C3 (amended): when the note write fails, the response is 500 on
both webhook routes, but only the deal-created route records the failure
in the diagnostic activity log (entry `Deal webhook error`); the
email-reply route leaves the activity log unchanged for every body. -/
theorem c3_amended_note_write_failure (env : Env) (log : List LogEntry) (e : WebhookEvent)
    (d : DealData) (g : String)
    (hsub : e.subscriptionType = some "deal.creation")
    (hdeal : env.dealResp e.objectId = Except.ok d)
    (hgen : env.genResp 0 = Except.ok g)
    (hnote : env.noteResp (dealNote e.objectId g) = Except.error ()) :
    (dealCreatedHandler env log (ReqBody.array [e])).response.status = 500 ∧
    ((dealCreatedHandler env log (ReqBody.array [e])).activityLog).getLast? =
      some { message := "Deal webhook error" } ∧
    ∀ body, (emailReplyHandler env log body).activityLog = log := by
  refine ⟨?_, ?_, ?_⟩
  · simp [dealCreatedHandler, dealEventLoop, processDealCreation, getDealData,
      generateEmailContent, saveNoteToHubSpot, hsub, hdeal, hgen, hnote]
  · simp [dealCreatedHandler, dealEventLoop, processDealCreation, getDealData,
      generateEmailContent, saveNoteToHubSpot, hsub, hdeal, hgen, hnote,
      logActivity_getLast]
  · intro body
    cases body with
    | array events =>
      cases events with
      | nil => rfl
      | cons ev rest =>
        rcases h : convEventLoop env (ev :: rest) 0 with ⟨t, k, r⟩
        cases r <;> simp [emailReplyHandler, h]
    | absent => rfl
    | nonArray => rfl

/-- Witness for the amended C3 at a concrete failing note write. -/
theorem c3_witness :
    (dealCreatedHandler noteFailEnv [] (ReqBody.array [dealEvent1])).response.status = 500 ∧
    ((dealCreatedHandler noteFailEnv [] (ReqBody.array [dealEvent1])).activityLog).getLast? =
      some { message := "Deal webhook error" } ∧
    ∀ body, (emailReplyHandler noteFailEnv [] body).activityLog = [] :=
  c3_amended_note_write_failure noteFailEnv [] dealEvent1 dealData1 "0" rfl rfl rfl rfl

/-- Claim C4: false on the code — `POST /test-email-reply` never triggers
the conversation-reply pipeline.  The handler calls `processEmailReply`,
a function defined nowhere in `src/app.js`, so evaluating the call throws
a `ReferenceError`; for every request body the route performs no outbound
effect and responds 500. -/
theorem c4_test_email_reply_broken :
    ∀ emailIdField, testEmailReplyHandler emailIdField =
      ([], { status := 500, body := RespBody.testError }) :=
  fun _ => rfl

/-- Helper: for an incoming latest message, the conversation pipeline
always proceeds past the direction gate to the associations fetch, so its
trace starts with the conversation fetch followed by the associations
call, whatever the associations and the per-deal loop then do. -/
theorem processConversationReply_incoming_trace (env : Env) (k : Nat) (e : WebhookEvent)
    (cd : ConvData) (m : Message)
    (hconv : env.convResp e.objectId = Except.ok cd)
    (hmsg : (messagesOf cd).getLast? = some m)
    (hdir : directionOf m = some "INCOMING" ∨ directionOf m = some "VISITOR") :
    ∃ t kr, processConversationReply env k e =
      (Effect.fetchConv e.objectId :: Effect.fetchAssocHttp e.objectId :: t, kr) := by
  unfold processConversationReply getConversationData getConversationAssociations
  simp only [hconv, hmsg, hdir, if_pos]
  by_cases hd : dealIdsOf
      (match env.assocResp e.objectId with
        | Except.ok r => r
        | Except.error _ => { results := [] }) = []
  · exact ⟨[], (k, Except.ok ()), by simp [hd]⟩
  · rcases hLoop : conversationDealLoop env e.objectId (subjectOf cd) (contentOf m)
        (dealIdsOf
          (match env.assocResp e.objectId with
            | Except.ok r => r
            | Except.error _ => { results := [] })) k with ⟨t3, k2, r⟩
    exact ⟨t3, (k2, r), by simp [hd, hLoop]⟩

/-- Claim C5: after fetching the conversation, the pipeline inspects the
latest message direction; for a direction other than `INCOMING`/`VISITOR`
it stops as a silent no-op — the request trace holds only the
conversation fetch, so no generation or note write occurred — and the
response is still 200; for `INCOMING`/`VISITOR` it continues to the
associations fetch. -/
theorem c5_direction_gate (env : Env) (log : List LogEntry) (e : WebhookEvent)
    (cd : ConvData) (m : Message)
    (hobj : e.object = some "conversation") (hev : e.eventId = some "created")
    (hconv : env.convResp e.objectId = Except.ok cd)
    (hmsg : (messagesOf cd).getLast? = some m) :
    (¬(directionOf m = some "INCOMING" ∨ directionOf m = some "VISITOR") →
      (emailReplyHandler env log (ReqBody.array [e])).trace = [Effect.fetchConv e.objectId] ∧
      (emailReplyHandler env log (ReqBody.array [e])).response.status = 200) ∧
    ((directionOf m = some "INCOMING" ∨ directionOf m = some "VISITOR") →
      ∃ t, (emailReplyHandler env log (ReqBody.array [e])).trace =
        Effect.fetchConv e.objectId :: Effect.fetchAssocHttp e.objectId :: t) := by
  constructor
  · intro hdir
    simp [emailReplyHandler, convEventLoop, processConversationReply, getConversationData,
      hobj, hev, hconv, hmsg, hdir]
  · intro hdir
    obtain ⟨t, ⟨k2, r⟩, hrun⟩ :=
      processConversationReply_incoming_trace env 0 e cd m hconv hmsg hdir
    refine ⟨?_, ?_⟩
    · exact match r with | Except.ok _ => t ++ [] | Except.error _ => t
    · cases r <;> simp [emailReplyHandler, convEventLoop, hobj, hev, hrun]

/-- Witness for C5 at a concrete outgoing-direction conversation. -/
theorem c5_witness :
    (emailReplyHandler okEnv [] (ReqBody.array [convEventOut])).trace =
      [Effect.fetchConv convEventOut.objectId] ∧
    (emailReplyHandler okEnv [] (ReqBody.array [convEventOut])).response.status = 200 :=
  (c5_direction_gate okEnv [] convEventOut convOut outgoingMsg rfl rfl rfl rfl).1
    (by decide)

/-- Helper: the note body built by `saveEmailResponseNoteToDeal`
determines the generated text it wraps. -/
theorem conversationNoteBody_inj {a b : String}
    (h : conversationNoteBody a = conversationNoteBody b) : a = b := by
  unfold conversationNoteBody at h
  have h2 := congrArg String.data h
  simp at h2
  exact String.ext h2

/-- Claim C6: for a conversation event whose associations yield exactly
the two deal ids `d1, d2`, the pipeline performs the generation call twice
— once per deal, not cached — and the note write twice, once per deal id,
in per-deal order; each note wraps the text of its own generation call, so
whenever the two generation results differ the two note bodies differ. -/
theorem c6_two_deals (env : Env) (log : List LogEntry) (e : WebhookEvent)
    (cd : ConvData) (m : Message) (d1 d2 g0 g1 : String)
    (hobj : e.object = some "conversation") (hev : e.eventId = some "created")
    (hconv : env.convResp e.objectId = Except.ok cd)
    (hmsg : (messagesOf cd).getLast? = some m)
    (hdir : directionOf m = some "INCOMING" ∨ directionOf m = some "VISITOR")
    (hassoc : dealIdsOf (getConversationAssociations env e.objectId).2 = [d1, d2])
    (hg0 : env.genResp 0 = Except.ok g0)
    (hg1 : env.genResp 1 = Except.ok g1)
    (hn1 : env.noteResp (convNote e.objectId g0 d1) = Except.ok ())
    (hn2 : env.noteResp (convNote e.objectId g1 d2) = Except.ok ()) :
    (emailReplyHandler env log (ReqBody.array [e])).trace =
      [Effect.fetchConv e.objectId, Effect.fetchAssocHttp e.objectId,
       Effect.generate (conversationPrompt (subjectOf cd) (contentOf m)),
       Effect.createNote (convNote e.objectId g0 d1),
       Effect.generate (conversationPrompt (subjectOf cd) (contentOf m)),
       Effect.createNote (convNote e.objectId g1 d2)] ∧
    (g0 ≠ g1 →
      (convNote e.objectId g0 d1).body ≠ (convNote e.objectId g1 d2).body) := by
  constructor
  · simp only [getConversationAssociations] at hassoc
    simp [emailReplyHandler, convEventLoop, processConversationReply,
      getConversationData, getConversationAssociations, conversationDealLoop,
      generateConversationResponse, saveEmailResponseNoteToDeal,
      hobj, hev, hconv, hmsg, hdir, hassoc, hg0, hg1, hn1, hn2]
  · intro hne heq
    exact hne (conversationNoteBody_inj heq)

/-- Witness for C6 at a concrete conversation with two associated deals,
whose two generation calls return the distinct texts `0` and `1`. -/
theorem c6_witness :
    (emailReplyHandler okEnv [] (ReqBody.array [convEventInc])).trace =
      [Effect.fetchConv convEventInc.objectId, Effect.fetchAssocHttp convEventInc.objectId,
       Effect.generate (conversationPrompt (subjectOf convInc) (contentOf incomingMsg)),
       Effect.createNote (convNote convEventInc.objectId "0" "D1"),
       Effect.generate (conversationPrompt (subjectOf convInc) (contentOf incomingMsg)),
       Effect.createNote (convNote convEventInc.objectId "1" "D2")] ∧
    (convNote convEventInc.objectId "0" "D1").body ≠
      (convNote convEventInc.objectId "1" "D2").body := by
  have h := c6_two_deals okEnv [] convEventInc convInc incomingMsg "D1" "D2" "0" "1"
    rfl rfl rfl rfl (Or.inl rfl) rfl rfl rfl rfl rfl
  exact ⟨h.1, h.2 (by decide)⟩

/-- Claim C7: for a malformed body — absent, not an array, or an empty
array — both webhook routes answer 400 with the invalid-webhook-data body
and perform no outbound call at all. -/
theorem c7_malformed_body (env : Env) (log : List LogEntry) (body : ReqBody)
    (h : body = ReqBody.absent ∨ body = ReqBody.nonArray ∨ body = ReqBody.array []) :
    (dealCreatedHandler env log body).trace = [] ∧
    (dealCreatedHandler env log body).response =
      { status := 400, body := RespBody.invalidWebhookData } ∧
    (emailReplyHandler env log body).trace = [] ∧
    (emailReplyHandler env log body).response =
      { status := 400, body := RespBody.invalidWebhookData } := by
  rcases h with h | h | h <;> subst h <;>
    exact ⟨rfl, rfl, rfl, rfl⟩

/-- Witness for C7 at the concrete empty-array body. -/
theorem c7_witness :
    (dealCreatedHandler okEnv [] (ReqBody.array [])).trace = [] ∧
    (dealCreatedHandler okEnv [] (ReqBody.array [])).response =
      { status := 400, body := RespBody.invalidWebhookData } ∧
    (emailReplyHandler okEnv [] (ReqBody.array [])).trace = [] ∧
    (emailReplyHandler okEnv [] (ReqBody.array [])).response =
      { status := 400, body := RespBody.invalidWebhookData } :=
  c7_malformed_body okEnv [] (ReqBody.array []) (Or.inr (Or.inr rfl))

/-- An incoming message that carries neither `text` nor `body`. -/
def msgNoContent : Message :=
  { direction := some "INCOMING", senderType := none, text := none, body := none }

/-- A deal property map with every property missing. -/
def emptyProps : DealProps :=
  { dealname := none, amount := none, dealstage := none, closedate := none,
    pipeline := none, dealtype := none, description := none }

/-- A conversation with no subject. -/
def noSubjectConv : ConvData := { threads := [], subject := none }

/-- Counterexample to claim C8: in the conversation pipeline a missing
message content renders as the empty string (`latestMessage.text ||
latestMessage.body || ''`), not as the literal placeholder `No Content` —
that placeholder exists only in the unused `generateEmailResponse`. -/
theorem c8_counterexample :
    contentOf msgNoContent = "" ∧ contentOf msgNoContent ≠ "No Content" := by
  decide

/-- Claim C8 (amended): prompt construction is a pure (hence
deterministic) function of the record fields; each of the five missing
deal fields renders exactly as the literal `N/A` would, a missing
conversation subject renders as `No Subject`, and a missing message
content renders as the empty string, not as `No Content`. -/
theorem c8_amended_placeholders (p : DealProps) (cd : ConvData) (m : Message) :
    (p.dealname = none → dealPrompt p = dealPrompt { p with dealname := some "N/A" }) ∧
    (p.amount = none → dealPrompt p = dealPrompt { p with amount := some "N/A" }) ∧
    (p.dealstage = none → dealPrompt p = dealPrompt { p with dealstage := some "N/A" }) ∧
    (p.closedate = none → dealPrompt p = dealPrompt { p with closedate := some "N/A" }) ∧
    (p.description = none → dealPrompt p = dealPrompt { p with description := some "N/A" }) ∧
    (cd.subject = none → subjectOf cd = "No Subject") ∧
    (m.text = none ∧ m.body = none → contentOf m = "") := by
  refine ⟨?_, ?_, ?_, ?_, ?_, ?_, ?_⟩ <;> intro h <;>
    simp [dealPrompt, subjectOf, contentOf, jsOr, jsOrOpt, jsTruthy, h]

/-- Witness for the amended C8 at concrete records with missing fields. -/
theorem c8_witness :
    dealPrompt emptyProps = dealPrompt { emptyProps with dealname := some "N/A" } ∧
    subjectOf noSubjectConv = "No Subject" ∧
    contentOf msgNoContent = "" :=
  ⟨(c8_amended_placeholders emptyProps noSubjectConv msgNoContent).1 rfl,
   (c8_amended_placeholders emptyProps noSubjectConv msgNoContent).2.2.2.2.2.1 rfl,
   (c8_amended_placeholders emptyProps noSubjectConv msgNoContent).2.2.2.2.2.2 ⟨rfl, rfl⟩⟩

/-- Claim C9: an append to the diagnostic log never leaves more than 50
entries; an append to a full (50-entry) log evicts exactly the oldest
entry (FIFO) while appending the new one; and the `/activity-log` view is
a suffix of the log which, whenever at least 10 entries are retained, has
exactly the most recent 10. -/
theorem c9_log_capacity (log : List LogEntry) (m : String) :
    (logActivity log m).length ≤ 50 ∧
    (log.length = 50 → logActivity log m = log.tail ++ [{ message := m }]) ∧
    List.IsSuffix (activityLogView log) log ∧
    (10 ≤ log.length → (activityLogView log).length = 10) := by
  refine ⟨?_, ?_, ?_, ?_⟩
  · unfold logActivity
    by_cases h : (log ++ [LogEntry.mk m]).length > 50
    · rw [if_pos h]
      simp only [List.length_drop, List.length_append, List.length_cons,
        List.length_nil]
      omega
    · rw [if_neg h]
      simp at h ⊢
      omega
  · intro h50
    unfold logActivity
    have hlen : (log ++ [LogEntry.mk m]).length - 50 = 1 := by simp [h50]
    rw [if_pos (by simp [h50]), hlen,
      List.drop_append_of_le_length (by omega), List.drop_one]
  · exact List.drop_suffix _ _
  · intro h10
    simp only [activityLogView, List.length_drop]
    omega

/-- A log already holding 50 entries. -/
def fullLog : List LogEntry := List.replicate 50 { message := "x" }

/-- Witness for C9 at a concrete full log. -/
theorem c9_witness :
    (logActivity fullLog "y").length ≤ 50 ∧
    logActivity fullLog "y" = fullLog.tail ++ [{ message := "y" }] ∧
    List.IsSuffix (activityLogView fullLog) fullLog ∧
    (activityLogView fullLog).length = 10 := by
  have h := c9_log_capacity fullLog "y"
  exact ⟨h.1, h.2.1 (by decide), h.2.2.1, h.2.2.2 (by decide)⟩

/-- Claim C10: read asymmetry of the CRM client.  A failing record fetch
propagates: `processDealCreation` and `processConversationReply` abort
with the error after the single fetch effect.  A failing associations
fetch does not propagate: `getConversationAssociations` returns an empty
result set, and a pipeline run that reaches it continues and finishes as
a no-op success with no associated deals. -/
theorem c10_read_asymmetry (env : Env) (k : Nat) (eD eC : WebhookEvent)
    (hdeal : env.dealResp eD.objectId = Except.error ())
    (hconvFail : env.convResp eC.objectId = Except.error ()) :
    processDealCreation env k eD = ([Effect.fetchDeal eD.objectId], k, Except.error ()) ∧
    processConversationReply env k eC =
      ([Effect.fetchConv eC.objectId], k, Except.error ()) ∧
    (∀ convId, env.assocResp convId = Except.error () →
      (getConversationAssociations env convId).2 = { results := [] }) ∧
    (∀ e cd m, env.convResp e.objectId = Except.ok cd →
      (messagesOf cd).getLast? = some m →
      (directionOf m = some "INCOMING" ∨ directionOf m = some "VISITOR") →
      env.assocResp e.objectId = Except.error () →
      processConversationReply env k e =
        ([Effect.fetchConv e.objectId, Effect.fetchAssocHttp e.objectId], k,
          Except.ok ())) := by
  refine ⟨?_, ?_, ?_, ?_⟩
  · simp [processDealCreation, getDealData, hdeal]
  · simp [processConversationReply, getConversationData, hconvFail]
  · intro convId h
    simp [getConversationAssociations, h]
  · intro e cd m hc hm hd ha
    simp [processConversationReply, getConversationData, getConversationAssociations,
      hc, hm, hd, ha, dealIdsOf]

/-- An environment in which every record fetch fails except conversation
`900`, and every associations fetch fails. -/
def fetchFailEnv : Env :=
  { dealResp := fun _ => Except.error ()
    convResp := fun id => if id = "900" then Except.ok convInc else Except.error ()
    assocResp := fun _ => Except.error ()
    genResp := fun k => Except.ok (Nat.repr k)
    noteResp := fun _ => Except.ok () }

/-- A conversation-created event whose conversation fetch fails in
`fetchFailEnv`. -/
def convEventFail : WebhookEvent :=
  { subscriptionType := none, object := some "conversation", eventId := some "created",
    objectId := "c1" }

/-- Witness for C10 at concrete failing fetches. -/
theorem c10_witness :
    processDealCreation fetchFailEnv 0 dealEventA =
      ([Effect.fetchDeal dealEventA.objectId], 0, Except.error ()) ∧
    processConversationReply fetchFailEnv 0 convEventFail =
      ([Effect.fetchConv convEventFail.objectId], 0, Except.error ()) ∧
    (getConversationAssociations fetchFailEnv "777").2 = { results := [] } ∧
    processConversationReply fetchFailEnv 0 convEventInc =
      ([Effect.fetchConv convEventInc.objectId,
        Effect.fetchAssocHttp convEventInc.objectId], 0, Except.ok ()) := by
  have h := c10_read_asymmetry fetchFailEnv 0 dealEventA convEventFail rfl rfl
  exact ⟨h.1, h.2.1, h.2.2.1 "777" rfl,
    h.2.2.2 convEventInc convInc incomingMsg rfl rfl (Or.inl rfl) rfl⟩
